import Mathlib

/-!
Shallow embedding of `scripts/read_serial.py`, a serial-port reader for a
Raspberry Pi Pico, together with theorems checking the specification's
claims about it.

The script has two functions:

* `find_pico_port` globs two fixed device patterns in priority order and
  returns the first match, or `None`;
* `main` exits with status 1 when no port is found, otherwise opens the
  port at 115200 baud with a 1-second timeout inside a `with` block and
  loops forever, decoding each read line as UTF-8 with `errors='ignore'`,
  right-stripping it and printing it; `KeyboardInterrupt` and any other
  exception are caught at the top level of `main`.

The filesystem is modelled as a function from glob pattern to the list of
matching paths; the serial line is modelled as a trace of loop events
(no data waiting, a line of bytes, an interrupt, an I/O error).
-/

/-- The first glob pattern scanned: `/dev/tty.usbmodem*` (macOS naming). -/
def usbmodemPattern : String := "/dev/tty.usbmodem*"

/-- The second glob pattern scanned: `/dev/ttyACM*` (Linux naming). -/
def acmPattern : String := "/dev/ttyACM*"

/-- Embedding of `find_pico_port`.  `fs pat` is the list `glob.glob(pat)`
returns; the Python code takes `ports[0]` of the first non-empty result and
returns `None` when both globs are empty. -/
def find_pico_port (fs : String → List String) : Option String :=
  match fs usbmodemPattern with
  | p :: _ => some p
  | [] =>
    match fs acmPattern with
    | p :: _ => some p
    | [] => none

/-- Is `b` a UTF-8 continuation byte (`0x80–0xBF`)? -/
def isCont (b : Nat) : Bool := 128 ≤ b && b ≤ 191

/-- Valid range of the first continuation byte of a three-byte sequence
starting with `b` (narrowed for `0xE0` to exclude overlong forms and for
`0xED` to exclude surrogates). -/
def cont3First (b b1 : Nat) : Bool :=
  if b = 224 then 160 ≤ b1 && b1 ≤ 191
  else if b = 237 then 128 ≤ b1 && b1 ≤ 159
  else isCont b1

/-- Valid range of the first continuation byte of a four-byte sequence
starting with `b` (narrowed for `0xF0` to exclude overlong forms and for
`0xF4` to stay below `U+110000`). -/
def cont4First (b b1 : Nat) : Bool :=
  if b = 240 then 144 ≤ b1 && b1 ≤ 191
  else if b = 244 then 128 ≤ b1 && b1 ≤ 143
  else isCont b1

/-- Embedding of Python's `bytes.decode('utf-8', errors='ignore')`, as a
fuel-indexed structural recursion: every step consumes at least one byte,
so fuel equal to the byte count (supplied by `utf8DecodeIgnore` below) is
always enough and the fuel bound is never what stops the decoding.  On an
invalid sequence the start byte and the continuation bytes already
validated are dropped and decoding resumes at the offending byte, matching
CPython's error ranges. -/
def utf8DecodeIgnoreAux : Nat → List Nat → List Char
  | 0, _ => []
  | _ + 1, [] => []
  | fuel + 1, b :: rest =>
    if b < 128 then Char.ofNat b :: utf8DecodeIgnoreAux fuel rest
    else if b < 194 then
      -- stray continuation byte or overlong two-byte start (0xC0/0xC1): dropped
      utf8DecodeIgnoreAux fuel rest
    else if b < 224 then
      match rest with
      | [] => []
      | b1 :: rest1 =>
        if isCont b1 then
          Char.ofNat ((b - 192) * 64 + (b1 - 128)) :: utf8DecodeIgnoreAux fuel rest1
        else utf8DecodeIgnoreAux fuel rest
    else if b < 240 then
      match rest with
      | [] => []
      | b1 :: rest1 =>
        if cont3First b b1 then
          match rest1 with
          | [] => []
          | b2 :: rest2 =>
            if isCont b2 then
              Char.ofNat ((b - 224) * 4096 + (b1 - 128) * 64 + (b2 - 128)) ::
                utf8DecodeIgnoreAux fuel rest2
            else utf8DecodeIgnoreAux fuel rest1
        else utf8DecodeIgnoreAux fuel rest
    else if b < 245 then
      match rest with
      | [] => []
      | b1 :: rest1 =>
        if cont4First b b1 then
          match rest1 with
          | [] => []
          | b2 :: rest2 =>
            if isCont b2 then
              match rest2 with
              | [] => []
              | b3 :: rest3 =>
                if isCont b3 then
                  Char.ofNat ((b - 240) * 262144 + (b1 - 128) * 4096 +
                      (b2 - 128) * 64 + (b3 - 128)) :: utf8DecodeIgnoreAux fuel rest3
                else utf8DecodeIgnoreAux fuel rest2
            else utf8DecodeIgnoreAux fuel rest1
        else utf8DecodeIgnoreAux fuel rest
    else
      -- 0xF5-0xFF can start no valid sequence: dropped
      utf8DecodeIgnoreAux fuel rest

/-- Total permissive UTF-8 decoding of a byte list: seed the fuel with the
length of the input, which each recursive step strictly stays within. -/
def utf8DecodeIgnore (l : List Nat) : List Char :=
  utf8DecodeIgnoreAux l.length l

/-- Python's `str.isspace` character class, used by `str.rstrip()` with no
argument. -/
def isPySpace (c : Char) : Bool :=
  let n := c.toNat
  (9 ≤ n && n ≤ 13) || (28 ≤ n && n ≤ 31) || n == 32 || n == 133 || n == 160 ||
    n == 5760 || (8192 ≤ n && n ≤ 8202) || n == 8232 || n == 8233 ||
    n == 8239 || n == 8287 || n == 12288

/-- Embedding of `str.rstrip()`: remove trailing whitespace characters. -/
def rstripChars (l : List Char) : List Char :=
  ((l.reverse).dropWhile isPySpace).reverse

/-- The line printed for one `ser.readline()` result:
`line.decode('utf-8', errors='ignore').rstrip()`. -/
def readLineOut (bs : List Nat) : String :=
  String.mk (rstripChars (utf8DecodeIgnore bs))

/-- One iteration's worth of serial-line behaviour, as seen by the loop
body: `noData` means `ser.in_waiting` was falsy, `data bs` means bytes were
waiting and `ser.readline()` returned `bs`, `interrupt` is a
`KeyboardInterrupt` delivered during the iteration, `ioError m` is any
other exception raised during it with message `m`. -/
inductive SerialEvent where
  | noData : SerialEvent
  | data : List Nat → SerialEvent
  | interrupt : SerialEvent
  | ioError : String → SerialEvent
deriving DecidableEq

/-- Does this event model an exception being raised? -/
def SerialEvent.isException : SerialEvent → Bool
  | .interrupt => true
  | .ioError _ => true
  | _ => false

/-- How the `while True:` loop left the `with` block after a finite trace:
`running` means the trace was exhausted with the loop still going,
`interrupted` and `errored` mean an exception propagated out of the loop. -/
inductive LoopExit where
  | running : LoopExit
  | interrupted : LoopExit
  | errored : String → LoopExit
deriving DecidableEq

/-- The lines printed inside the loop and the way the loop ended. -/
structure LoopResult where
  output : List String
  exit : LoopExit
deriving DecidableEq

/-- Embedding of the `while True:` read loop over a finite trace of events.
`noData` iterations print nothing; a `data bs` iteration prints
`readLineOut bs`; an exception ends the loop at once. -/
def runLoop : List SerialEvent → LoopResult
  | [] => ⟨[], .running⟩
  | .noData :: rest => runLoop rest
  | .data bs :: rest =>
    let r := runLoop rest
    ⟨readLineOut bs :: r.output, r.exit⟩
  | .interrupt :: _ => ⟨[], .interrupted⟩
  | .ioError m :: _ => ⟨[], .errored m⟩

/-- The arguments of one `serial.Serial(port, 115200, timeout=1)` call. -/
structure OpenCall where
  port : String
  baud : Nat
  timeoutSeconds : Nat
deriving DecidableEq

/-- How the process ended: `finished n` is exit status `n` (`0` when `main`
returned normally), `stillRunning` means the finite trace ran out with the
loop still going. -/
inductive ProgStatus where
  | finished : Nat → ProgStatus
  | stillRunning : ProgStatus
deriving DecidableEq

/-- Everything observable about one run of `main`. -/
structure MainResult where
  output : List String
  status : ProgStatus
  openAttempts : List OpenCall
  openSucceeded : Bool
  closed : Bool
deriving DecidableEq

/-- The three lines `main` prints after discovery succeeds and before the
`try` block: the banner, the Ctrl+C hint (with its extra newline) and the
fifty-dash rule. -/
def headerLines (port : String) : List String :=
  ["Reading from " ++ port ++ " @ 115200 baud",
   "Press Ctrl+C to exit\n",
   String.mk (List.replicate 50 '-')]

/-- The result of the `if not port:` branch: the error line is printed and
`sys.exit(1)` ends the process with status 1, no port ever opened. -/
def notFoundResult : MainResult :=
  ⟨["Error: Pico serial port not found"], .finished 1, [], false, false⟩

/-- Embedding of `main`.  `fs` is the filesystem seen by the globs,
`openError = some m` means the `serial.Serial` constructor raised an
exception with message `m` (so no handle exists and the `with` block never
runs), and `ev` is the finite trace of loop events.  The `with` statement
closes the handle whenever the block is exited, normally or by exception;
`KeyboardInterrupt` and `Exception` are caught by the two `except` clauses,
after which `main` returns normally (status 0).  Python's `if not port:`
is falsy both for `None` and for an empty string. -/
def pyMain (fs : String → List String) (openError : Option String)
    (ev : List SerialEvent) : MainResult :=
  match find_pico_port fs with
  | none => notFoundResult
  | some p =>
    if p = "" then notFoundResult
    else
      match openError with
      | some m =>
        ⟨headerLines p ++ ["Error: " ++ m], .finished 0,
         [⟨p, 115200, 1⟩], false, false⟩
      | none =>
        match (runLoop ev).exit with
        | .running =>
          ⟨headerLines p ++ (runLoop ev).output, .stillRunning,
           [⟨p, 115200, 1⟩], true, false⟩
        | .interrupted =>
          ⟨headerLines p ++ (runLoop ev).output ++ ["\n\nExiting..."],
           .finished 0, [⟨p, 115200, 1⟩], true, true⟩
        | .errored m =>
          ⟨headerLines p ++ (runLoop ev).output ++ ["Error: " ++ m],
           .finished 0, [⟨p, 115200, 1⟩], true, true⟩

/-! ### Concrete filesystem fixtures used by the witnesses -/

/-- A filesystem on which both glob patterns match. -/
def fsBoth : String → List String := fun pat =>
  if pat = usbmodemPattern then ["/dev/tty.usbmodem1101", "/dev/tty.usbmodem1102"]
  else if pat = acmPattern then ["/dev/ttyACM0"] else []

/-- A filesystem on which only the second (`/dev/ttyACM*`) pattern matches. -/
def fsAcmOnly : String → List String := fun pat =>
  if pat = acmPattern then ["/dev/ttyACM0", "/dev/ttyACM1"] else []

/-- A filesystem on which no pattern matches. -/
def fsEmpty : String → List String := fun _ => []

/-! ### Theorems for the claims -/

/-- Claim C1: port discovery consults exactly the two fixed glob patterns
`/dev/tty.usbmodem*` and then `/dev/ttyACM*`; for every filesystem it
returns the first match of the highest-priority pattern that has any match,
and `none` when neither pattern matches anything. -/
theorem find_pico_port_priority (fs : String → List String) :
    (fs usbmodemPattern ≠ [] → find_pico_port fs = (fs usbmodemPattern).head?) ∧
    (fs usbmodemPattern = [] → fs acmPattern ≠ [] →
      find_pico_port fs = (fs acmPattern).head?) ∧
    (fs usbmodemPattern = [] → fs acmPattern = [] →
      find_pico_port fs = none) := by
  unfold find_pico_port
  refine ⟨fun h => ?_, fun h h2 => ?_, fun h h2 => ?_⟩
  · cases hu : fs usbmodemPattern with
    | nil => exact absurd hu h
    | cons q t => simp [hu]
  · cases ha : fs acmPattern with
    | nil => exact absurd ha h2
    | cons q t => simp [h, ha]
  · simp [h, h2]

/-- Witness for C1 at three concrete filesystems. -/
theorem find_pico_port_priority_witness :
    find_pico_port fsBoth = some "/dev/tty.usbmodem1101" ∧
    find_pico_port fsAcmOnly = some "/dev/ttyACM0" ∧
    find_pico_port fsEmpty = none := by
  refine ⟨?_, ?_, ?_⟩
  · have h := (find_pico_port_priority fsBoth).1 (by simp [fsBoth])
    simpa [fsBoth] using h
  · have h := (find_pico_port_priority fsAcmOnly).2.1
      (by simp [fsAcmOnly, usbmodemPattern, acmPattern])
      (by simp [fsAcmOnly])
    simpa [fsAcmOnly] using h
  · exact (find_pico_port_priority fsEmpty).2.2 rfl rfl

/-- Claim C2: every byte sequence read in the loop is decoded permissively
(the decoder is a total function, and an invalid byte such as `0xFF` is
dropped rather than raising), the decoded string is right-stripped of
whitespace, and the resulting line is printed. -/
theorem loop_decodes_strips_prints (bs : List Nat) (rest : List SerialEvent) :
    (runLoop (.data bs :: rest)).output =
      readLineOut bs :: (runLoop rest).output ∧
    readLineOut bs = String.mk (rstripChars (utf8DecodeIgnore bs)) ∧
    (∀ tl, utf8DecodeIgnore (255 :: tl) = utf8DecodeIgnore tl) := by
  exact ⟨rfl, rfl, fun tl => rfl⟩

/-- Claim C3: when discovery returns the not-found signal, `main` prints
the error line and exits with status 1, and no serial open is ever
attempted. -/
theorem not_found_exits_nonzero (fs : String → List String)
    (oe : Option String) (ev : List SerialEvent)
    (h : find_pico_port fs = none) :
    (pyMain fs oe ev).output = ["Error: Pico serial port not found"] ∧
    (pyMain fs oe ev).status = .finished 1 ∧
    (pyMain fs oe ev).openAttempts = [] := by
  have hm : pyMain fs oe ev = notFoundResult := by
    unfold pyMain
    rw [h]
  rw [hm]
  exact ⟨rfl, rfl, rfl⟩

/-- Witness for C3 on the empty filesystem. -/
theorem not_found_exits_nonzero_witness :
    (pyMain fsEmpty none []).output = ["Error: Pico serial port not found"] ∧
    (pyMain fsEmpty none []).status = .finished 1 ∧
    (pyMain fsEmpty none []).openAttempts = [] :=
  not_found_exits_nonzero fsEmpty none [] rfl

/-- Claim C4: an I/O exception raised during the read loop is caught at the
top level of `main`: its message is printed after the loop's output and the
process finishes with status 0 (a normal return from `main`). -/
theorem loop_error_caught (fs : String → List String) (p : String)
    (ev : List SerialEvent) (msg : String)
    (hp : find_pico_port fs = some p) (hne : p ≠ "")
    (he : (runLoop ev).exit = .errored msg) :
    (pyMain fs none ev).status = .finished 0 ∧
    (pyMain fs none ev).output =
      headerLines p ++ (runLoop ev).output ++ ["Error: " ++ msg] := by
  unfold pyMain
  rw [hp]
  simp [hne, he]

/-- Witness for C4: an error in the first loop iteration on a concrete
filesystem. -/
theorem loop_error_caught_witness :
    (pyMain fsAcmOnly none [SerialEvent.ioError "boom"]).status =
      .finished 0 ∧
    (pyMain fsAcmOnly none [SerialEvent.ioError "boom"]).output =
      headerLines "/dev/ttyACM0" ++ ["Error: boom"] := by
  have h := loop_error_caught fsAcmOnly "/dev/ttyACM0"
    [SerialEvent.ioError "boom"] "boom" rfl (by simp) rfl
  exact ⟨h.1, h.2.trans (by rfl)⟩

/-- Claim C5: a `KeyboardInterrupt` during the loop produces a clean exit:
the farewell message is printed after the loop's output and `main` returns
normally (status 0). -/
theorem interrupt_clean_exit (fs : String → List String) (p : String)
    (ev : List SerialEvent)
    (hp : find_pico_port fs = some p) (hne : p ≠ "")
    (hi : (runLoop ev).exit = .interrupted) :
    (pyMain fs none ev).status = .finished 0 ∧
    (pyMain fs none ev).output =
      headerLines p ++ (runLoop ev).output ++ ["\n\nExiting..."] := by
  unfold pyMain
  rw [hp]
  simp [hne, hi]

/-- Witness for C5: an interrupt after one line is read. -/
theorem interrupt_clean_exit_witness :
    (pyMain fsAcmOnly none
      [SerialEvent.data [104, 105, 10], SerialEvent.interrupt]).status =
      .finished 0 ∧
    (pyMain fsAcmOnly none
      [SerialEvent.data [104, 105, 10], SerialEvent.interrupt]).output =
      headerLines "/dev/ttyACM0" ++ ["hi", "\n\nExiting..."] := by
  have h := interrupt_clean_exit fsAcmOnly "/dev/ttyACM0"
    [SerialEvent.data [104, 105, 10], SerialEvent.interrupt] rfl (by simp) rfl
  exact ⟨h.1, h.2.trans (by rfl)⟩

/-- Claim C6: the loop is unbounded — over any finite trace in which no
exception is raised, it is still running at the end, so nothing but an
interrupt or an I/O exception ever ends it. -/
theorem loop_unbounded (ev : List SerialEvent)
    (h : ∀ e ∈ ev, e.isException = false) :
    (runLoop ev).exit = .running := by
  induction ev with
  | nil => rfl
  | cons e rest ih =>
    have hrest : ∀ x ∈ rest, SerialEvent.isException x = false :=
      fun x hx => h x (List.mem_cons_of_mem _ hx)
    cases e with
    | noData => exact ih hrest
    | data bs => simpa [runLoop] using ih hrest
    | interrupt => simpa [SerialEvent.isException] using h _ (List.mem_cons_self _ _)
    | ioError m => simpa [SerialEvent.isException] using h _ (List.mem_cons_self _ _)

/-- Witness for C6 on a concrete exception-free trace. -/
theorem loop_unbounded_witness :
    (runLoop [SerialEvent.noData, SerialEvent.data [65, 10],
      SerialEvent.noData]).exit = .running :=
  loop_unbounded [SerialEvent.noData, SerialEvent.data [65, 10],
    SerialEvent.noData] (by decide)

/-- Claim C7: the serial handle is acquired by the `with` statement and is
released on every exit path from the read section — whenever a run in which
the open succeeded finishes (by interrupt or by error; a normal loop exit
cannot even occur), the handle has been closed. -/
theorem handle_released (fs : String → List String) (oe : Option String)
    (ev : List SerialEvent) :
    (pyMain fs oe ev).openSucceeded = true →
    (pyMain fs oe ev).status ≠ ProgStatus.stillRunning →
    (pyMain fs oe ev).closed = true := by
  unfold pyMain
  split
  · intro h _
    simp [notFoundResult] at h
  · split
    · intro h _
      simp [notFoundResult] at h
    · split
      · intro h _
        simp at h
      · split
        · intro _ hd
          simp at hd
        · intro _ _
          rfl
        · intro _ _
          rfl

/-- Witness for C7: after an interrupt the handle is closed. -/
theorem handle_released_witness :
    (pyMain fsAcmOnly none [SerialEvent.interrupt]).closed = true :=
  handle_released fsAcmOnly none [SerialEvent.interrupt] rfl (by decide)

/-- Claim C8: every `serial.Serial` call any run of `main` makes uses baud
rate 115200 and timeout 1, whatever the filesystem, open outcome and serial
trace are. -/
theorem open_params_fixed (fs : String → List String) (oe : Option String)
    (ev : List SerialEvent) (c : OpenCall)
    (hc : c ∈ (pyMain fs oe ev).openAttempts) :
    c.baud = 115200 ∧ c.timeoutSeconds = 1 := by
  unfold pyMain at hc
  split at hc
  · simp [notFoundResult] at hc
  · split at hc
    · simp [notFoundResult] at hc
    · split at hc
      · simp at hc
        subst hc
        exact ⟨rfl, rfl⟩
      · split at hc <;>
          (simp at hc; subst hc; exact ⟨rfl, rfl⟩)

/-- Witness for C8 on a concrete successful open. -/
theorem open_params_fixed_witness :
    (⟨"/dev/ttyACM0", 115200, 1⟩ : OpenCall).baud = 115200 ∧
    (⟨"/dev/ttyACM0", 115200, 1⟩ : OpenCall).timeoutSeconds = 1 :=
  open_params_fixed fsAcmOnly none [] ⟨"/dev/ttyACM0", 115200, 1⟩ (by decide)

/-- Claim C9: an exception raised by the `serial.Serial` constructor itself
is caught by the same top-level handler as loop errors: the message is
printed right after the header, no loop output exists, `main` returns
normally, and the exit status equals that of a run that fails inside the
loop. -/
theorem open_error_caught (fs : String → List String) (p msg : String)
    (ev : List SerialEvent)
    (hp : find_pico_port fs = some p) (hne : p ≠ "") :
    pyMain fs (some msg) ev =
      ⟨headerLines p ++ ["Error: " ++ msg], .finished 0,
       [⟨p, 115200, 1⟩], false, false⟩ ∧
    (pyMain fs (some msg) ev).status =
      (pyMain fs none (SerialEvent.ioError msg :: ev)).status := by
  constructor
  · unfold pyMain
    rw [hp]
    simp [hne]
  · unfold pyMain
    rw [hp]
    simp [hne, runLoop]

/-- Witness for C9: a failing open on a concrete filesystem. -/
theorem open_error_caught_witness :
    pyMain fsBoth (some "denied") [] =
      ⟨headerLines "/dev/tty.usbmodem1101" ++ ["Error: denied"], .finished 0,
       [⟨"/dev/tty.usbmodem1101", 115200, 1⟩], false, false⟩ ∧
    (pyMain fsBoth (some "denied") []).status =
      (pyMain fsBoth none [SerialEvent.ioError "denied"]).status :=
  open_error_caught fsBoth "/dev/tty.usbmodem1101" "denied" [] rfl (by simp)

/-- Claim C10: a line whose decoded and right-stripped form is empty is
still printed as a blank line — the loop suppresses nothing — and stripping
only removes a suffix, so leading whitespace is preserved (the printed line
is always a prefix of the decoded characters). -/
theorem empty_line_still_printed (bs : List Nat) (rest : List SerialEvent)
    (h : readLineOut bs = "") :
    (runLoop (.data bs :: rest)).output = "" :: (runLoop rest).output ∧
    (∀ cs : List Nat,
      (rstripChars (utf8DecodeIgnore cs)) <+: utf8DecodeIgnore cs) := by
  constructor
  · rw [← h]
    rfl
  · intro cs
    exact List.rdropWhile_prefix isPySpace (utf8DecodeIgnore cs)

/-- Witness for C10: a whitespace-only line (`" \r\n"`) is printed as the
empty line. -/
theorem empty_line_still_printed_witness :
    (runLoop [SerialEvent.data [32, 13, 10]]).output = [""] :=
  (empty_line_still_printed [32, 13, 10] [] rfl).1
